import Mathlib

/-!
Verification development for the EZWAI SMM article-generation pipeline.

Shallow embedding of the pipeline code:
* `credit_system.py` — credit deduction / refund ledger arithmetic;
* `image_prompt_generator.py` — H2 section extraction and prompt-set validation;
* `openai_integration_v4.py` — SeeDream image-generation polling loop and the
  final validation gate of the V4 orchestrator;
* `openai_integration_v3.py` — the V3 orchestrator's fallback prompt padding;
* `magazine_formatter.py` — the template layout assembler.

External HTTP services (OpenAI, Replicate, Stripe, WordPress) are modelled as
explicit oracle/outcome parameters; machine-level concerns (wall-clock time,
logging) are abstracted as stated at each definition.
-/

namespace EZWAI

/-! ## Basic string machinery (ASCII model of Python `str` operations)

Python string operations used by the pipeline are modelled on `List Char`.
Unicode-specific behaviour (non-ASCII whitespace classes, `str.lower` beyond
ASCII) is not exercised by the code paths under study and is modelled on the
ASCII fragment.
-/

/-- Python `\s` whitespace class, ASCII fragment. -/
def isPyWs (c : Char) : Bool :=
  c = ' ' || c = '\t' || c = '\n' || c = '\r' || c = Char.ofNat 11 || c = Char.ofNat 12

/-- Python `str.strip()` on a character list. -/
def stripChars (cs : List Char) : List Char :=
  ((cs.dropWhile isPyWs).reverse.dropWhile isPyWs).reverse

/-- Python `str.strip()`. -/
def pyStrip (s : String) : String :=
  String.mk (stripChars s.toList)

/-- ASCII lower-casing of a character (for case-insensitive regex flags). -/
def asciiLower (c : Char) : Char :=
  if 'A' ≤ c ∧ c ≤ 'Z' then Char.ofNat (c.toNat + 32) else c

/-- Case-insensitive character comparison (models `re.I`). -/
def ciEq (a b : Char) : Bool :=
  asciiLower a = asciiLower b

/-- Case-insensitive "starts with" on character lists. -/
def ciIsPrefix : List Char → List Char → Bool
  | [], _ => true
  | _ :: _, [] => false
  | p :: ps, c :: cs => ciEq p c && ciIsPrefix ps cs

/-- Substring test on character lists (Python `needle in hay`). -/
def listContainsSub (hay needle : List Char) : Bool :=
  hay.tails.any fun t => needle.isPrefixOf t

/-- Python `needle in hay` for strings. -/
def strContains (hay needle : String) : Bool :=
  listContainsSub hay.toList needle.toList

/-- Helper for `collapseWsChars`: the flag records whether the previous
character belonged to a whitespace run already replaced by one space. -/
def collapseAux : Bool → List Char → List Char
  | _, [] => []
  | prevWs, c :: cs =>
    if isPyWs c then
      if prevWs then collapseAux true cs else ' ' :: collapseAux true cs
    else c :: collapseAux false cs

/-- Collapse every maximal run of whitespace to a single space:
Python `re.sub(r"\s+", " ", s)`. -/
def collapseWsChars (cs : List Char) : List Char :=
  collapseAux false cs

/-- Python `re.sub(r"\s+", " ", s).strip()` — the whitespace normalisation applied to
extracted heading and section text in `image_prompt_generator.py`. -/
def normSpace (s : String) : String :=
  String.mk (stripChars (collapseWsChars s.toList))

/-! ## Credit system (`credit_system.py`)

The SQLAlchemy `User` row is modelled by `UserRow`; nullable legacy columns
are `Option`-typed.  Credit amounts are integers (the module converts any
legacy float balance to `int` on entry; the integer model covers the
post-conversion state).  The database session is modelled as the user row
plus the append-only list of `CreditTransaction` rows; `db.session.commit()`
is modelled as succeeding (the exception path rolls everything back and
returns `False`, leaving the state unchanged, and the claims under study are
about the successful path). -/

/-- The constant `ARTICLE_COST` in `credit_system.py`. -/
def ARTICLE_COST : Int := 1

/-- A `CreditTransaction` row (the fields the claims are about). -/
structure CreditTxn where
  amount : Int
  transaction_type : String
  balance_after : Int
  deriving Repr, DecidableEq

/-- The `User` row fields read or written by `deduct_credits` /
`refund_credits` / `trigger_auto_recharge`. -/
structure UserRow where
  is_admin : Bool
  credit_balance : Option Int
  total_articles_generated : Option Int
  total_spent : Option Int
  auto_recharge_enabled : Bool
  auto_recharge_threshold : Int
  auto_recharge_amount : Int
  stripe_payment_method_present : Bool
  deriving Repr, DecidableEq

/-- Database state for one user: the row plus the transaction ledger. -/
structure CreditDb where
  user : UserRow
  txns : List CreditTxn
  deriving Repr, DecidableEq

/-- The NULL-field normalisation performed at the top of both
`deduct_credits` and `refund_credits` (`if user.credit_balance is None: ...`). -/
def normalizeNullFields (u : UserRow) : UserRow :=
  { u with
    credit_balance := some (u.credit_balance.getD 0)
    total_articles_generated := some (u.total_articles_generated.getD 0)
    total_spent := some (u.total_spent.getD 0) }

/-- Model of `trigger_auto_recharge(user, db)`: fires a Stripe off-session payment.
`stripeOk` models whether the external `PaymentIntent` reaches status
`succeeded`; without a saved payment method the function only emails a
warning and changes nothing. -/
def trigger_auto_recharge (db : CreditDb) (stripeOk : Bool) : CreditDb :=
  if ¬db.user.stripe_payment_method_present then db
  else if stripeOk then
    let bal := db.user.credit_balance.getD 0 + db.user.auto_recharge_amount
    { user := { db.user with credit_balance := some bal }
      txns := db.txns ++
        [{ amount := db.user.auto_recharge_amount
           transaction_type := "auto_recharge"
           balance_after := bal }] }
  else db

/-- Whether the auto-recharge check at the end of `deduct_credits` fires
(`user.auto_recharge_enabled and user.credit_balance < user.auto_recharge_threshold`). -/
def rechargeCheckFires (u : UserRow) : Bool :=
  u.auto_recharge_enabled && u.credit_balance.getD 0 < u.auto_recharge_threshold

/-- Model of `deduct_credits(user, db)` (`credit_system.py:120-179`): normalise NULL
fields, subtract `ARTICLE_COST` unless the user is an admin, increment the
article counter, log an `article_generation` / `admin_article_generation`
transaction, commit, then run the auto-recharge check.  Returns the success
flag together with the committed state. -/
def deduct_credits (db : CreditDb) (stripeOk : Bool) : Bool × CreditDb :=
  let u0 := normalizeNullFields db.user
  let bal := if ¬u0.is_admin then u0.credit_balance.getD 0 - ARTICLE_COST
             else u0.credit_balance.getD 0
  let arts := u0.total_articles_generated.getD 0 + 1
  let u1 := { u0 with credit_balance := some bal, total_articles_generated := some arts }
  let txn : CreditTxn :=
    { amount := if ¬u1.is_admin then -ARTICLE_COST else 0
      transaction_type :=
        if ¬u1.is_admin then "article_generation" else "admin_article_generation"
      balance_after := bal }
  let committed : CreditDb := { user := u1, txns := db.txns ++ [txn] }
  let final :=
    if rechargeCheckFires u1 then trigger_auto_recharge committed stripeOk
    else committed
  (true, final)

/-- Model of `refund_credits(user, db, reason)` (`credit_system.py:182-228`):
normalise NULL fields, add `ARTICLE_COST` back, decrement the article
counter, log a `refund` transaction, commit. -/
def refund_credits (db : CreditDb) : Bool × CreditDb :=
  let u0 := normalizeNullFields db.user
  let bal := u0.credit_balance.getD 0 + ARTICLE_COST
  let arts := u0.total_articles_generated.getD 0 - 1
  let u1 := { u0 with credit_balance := some bal, total_articles_generated := some arts }
  let txn : CreditTxn :=
    { amount := ARTICLE_COST, transaction_type := "refund", balance_after := bal }
  (true, { user := u1, txns := db.txns ++ [txn] })

/-! ## V4 final validation gate (`openai_integration_v4.py:612-644`)

The gate is a pure function of the assembled HTML, the delivery mode, and
the hero image reference.  `section_image_urls` and the executive-summary
flag are in scope at the gate in the source but produce only log lines
(warnings), never a failure; they are kept as arguments to state that
independence.  The result is `none` when every check passes, or
`some errorMessage` naming the failed check (the orchestrator then returns
`(None, errorMessage)`). -/

def v4_final_validation (local_mode : Bool) (final_html : String)
    (hero_image_url : String) (section_image_urls : List String)
    (has_exec_summary : Bool) : Option String :=
  let _ := section_image_urls   -- only logged, never checked
  let _ := has_exec_summary     -- only a logged warning, never a failure
  if ¬strContains final_html "style=\"" then some "CSS styling missing"
  else if local_mode then
    if ¬(strContains final_html "background-image" ∧
         strContains final_html "data:image/") then some "Hero section missing"
    else none
  else
    if ¬(strContains final_html "background-image" ∧
         strContains final_html hero_image_url) then some "Hero section missing"
    else none

/-! ## V3 fallback image prompts (`openai_integration_v3.py`, step 3 of
`create_blog_post_with_images_v3`)

When `generate_photographic_image_prompts` returns a list whose length is
not `num_images` (= 4: one hero + three section prompts), the orchestrator
discards it and rebuilds all prompts from templates. -/

/-- One entry of the `sections` outline (`s.get("h2", "Section")`). -/
structure OutlineSection where
  h2 : Option String
  deriving Repr, DecidableEq

/-- The fallback block: hero prompt from the title, one prompt per section
heading (at most `num_images - 1` of them), padded with `"{title} (detail)"`
prompts and finally truncated to `num_images`. -/
def v3_fallback_prompts (title : String) (sections : List OutlineSection)
    (num_images : Nat) : List String :=
  let base := ["Photorealistic editorial magazine photo — " ++ title]
  let withSections := base ++
    (sections.take (num_images - 1)).map
      (fun s => "Photorealistic editorial magazine photo — " ++ s.h2.getD "Section")
  let padded := withSections ++
    List.replicate (num_images - withSections.length)
      ("Photorealistic editorial magazine photo — " ++ title ++ " (detail)")
  padded.take num_images

/-- Step 3 of the V3 orchestrator: keep the returned prompts when there are
exactly `num_images` of them, otherwise replace them wholesale with the
fallback prompts (`num_images = 4` at the call site). -/
def v3_image_prompts (returned : List String) (title : String)
    (sections : List OutlineSection) : List String :=
  if returned.length = 4 then returned
  else v3_fallback_prompts title sections 4

/-! ## Section extraction (`image_prompt_generator.py:36-68`)

`extract_sections_from_html` scans the article HTML with
`re.finditer(r"<h2[^>]*>(.*?)</h2>", html, flags=re.I | re.S)` and builds one
section per match: the heading is the whitespace-normalised capture group,
the content is the text between this match's end and the next match's start
(or end of document), with tags stripped (`re.sub(r"<[^>]+>", " ", ...)`),
whitespace normalised, and previewed at 300 characters.

The regex engine fragment needed for this pattern is modelled exactly:
`<h2` matched case-insensitively, `[^>]*>` consuming up to the first `>`,
and the lazy group ending at the first case-insensitive `</h2>`; matches are
found leftmost-first and non-overlapping, as `re.finditer` does. -/

/-- Split at the first case-insensitive occurrence of `</h2>`: returns the
characters before it (the lazy capture group) and the characters after it. -/
def splitAtH2Close : List Char → Option (List Char × List Char)
  | [] => none
  | c :: cs =>
    if ciIsPrefix "</h2>".toList (c :: cs) then some ([], (c :: cs).drop 5)
    else
      match splitAtH2Close cs with
      | some (g, r) => some (c :: g, r)
      | none => none

/-- Try to match `<h2[^>]*>(.*?)</h2>` at the head of the list; on success
return the capture group and the characters after the whole match. -/
def matchH2At (cs : List Char) : Option (List Char × List Char) :=
  if ciIsPrefix "<h2".toList cs then
    let afterH2 := cs.drop 3
    match afterH2.dropWhile (fun d => d ≠ '>') with
    | [] => none                       -- no closing `>` for the open tag
    | _ :: afterOpen => splitAtH2Close afterOpen
  else none

/-- Find the leftmost match: returns (skipped characters before the match,
capture group, characters after the match). -/
def findFirstH2 : List Char → Option (List Char × List Char × List Char)
  | [] => none
  | c :: cs =>
    match matchH2At (c :: cs) with
    | some (g, r) => some ([], g, r)
    | none => (findFirstH2 cs).map fun sgr => (c :: sgr.1, sgr.2.1, sgr.2.2)

/-- Iterate `findFirstH2`, pairing each capture group with the raw characters
between that match and the next one (or the end of the document).  The fuel
argument is instantiated with the length of the remaining document, which
strictly bounds the number of further matches. -/
def h2SectionsGo : Nat → List Char → List Char → List (List Char × List Char)
  | 0, g, rest => [(g, rest)]
  | fuel + 1, g, rest =>
    match findFirstH2 rest with
    | none => [(g, rest)]
    | some (sk, g', r') => (g, sk) :: h2SectionsGo fuel g' r'

/-- All non-overlapping matches of `<h2[^>]*>(.*?)</h2>` in document order,
each paired with the raw inter-match content that follows it. -/
def h2Sections (cs : List Char) : List (List Char × List Char) :=
  match findFirstH2 cs with
  | none => []
  | some (_, g, rest) => h2SectionsGo rest.length g rest

/-- Python `re.sub(r"<[^>]+>", " ", s)`: replace every tag-shaped run by a space.
Fuel-indexed structural recursion; the fuel is instantiated with the input
length, which the remaining input never exceeds. -/
def stripTagsGo : Nat → List Char → List Char
  | 0, _ => []
  | _ + 1, [] => []
  | fuel + 1, c :: cs =>
    if c = '<' then
      let inner := cs.takeWhile (fun d => d ≠ '>')
      match cs.dropWhile (fun d => d ≠ '>') with
      | _ :: rest' =>
        if inner.isEmpty then c :: stripTagsGo fuel cs
        else ' ' :: stripTagsGo fuel rest'
      | [] => c :: stripTagsGo fuel cs
    else c :: stripTagsGo fuel cs

/-- Python `re.sub(r"<[^>]+>", " ", s)` on the characters of a string. -/
def stripTagsChars (cs : List Char) : List Char :=
  stripTagsGo cs.length cs

/-- The 300-character content preview:
`text[:300] + "..." if len(text) > 300 else text`. -/
def preview300 (s : String) : String :=
  if s.toList.length > 300 then String.mk (s.toList.take 300) ++ "..." else s

/-- One extracted section: `{"heading": ..., "content": ...}`. -/
structure HtmlSection where
  heading : String
  content : String
  deriving Repr, DecidableEq

/-- Build one section from a capture group and the raw inter-match content. -/
def mkHtmlSection (gc : List Char × List Char) : HtmlSection :=
  { heading := normSpace (String.mk gc.1)
    content := preview300 (normSpace (String.mk (stripTagsChars gc.2))) }

/-- Model of `extract_sections_from_html(html)` (`image_prompt_generator.py:36-68`). -/
def extract_sections_from_html (html : String) : List HtmlSection :=
  (h2Sections html.toList).map mkHtmlSection

/-- Case-insensitive substring occurrence check. -/
def containsCi (hay needle : List Char) : Bool :=
  hay.tails.any fun t => ciIsPrefix needle t

/-- Whether the document contains `<h2` at all (case-insensitively); `<h1>` /
`<h3>` tags do not produce such an occurrence. -/
def hasH2OpenTag (html : String) : Bool :=
  containsCi html.toList "<h2".toList

/-! ## Prompt-set validation (`image_prompt_generator.py:157-269`)

`generate_contextual_image_prompts` sends a request and post-processes the
reply: empty reply → `None`; JSON parse failure → `None`; a parsed object
missing `hero_prompt` or `section_prompts` → `None`; otherwise the parsed
object is returned as-is.  The section-prompt count is compared against
`len(extract_sections_from_html(article_html))` only in a log line — no
check, no truncation, no padding happens in this component.

The external call plus JSON parsing is modelled by an `Option PromptsReply`
argument: `none` covers the empty-response and malformed-JSON paths, and
inside a reply each relevant key is `Option`-typed to model its presence. -/

/-- One `{"section_heading": ..., "prompt": ...}` entry. -/
structure SectionPrompt where
  section_heading : String
  prompt : String
  deriving Repr, DecidableEq

/-- The parsed JSON reply; `none` fields model absent keys. -/
structure PromptsReply where
  hero_prompt : Option String
  section_prompts : Option (List SectionPrompt)
  deriving Repr, DecidableEq

/-- The validated prompt set the component hands to the orchestrator. -/
structure ImagePromptSet where
  hero_prompt : String
  section_prompts : List SectionPrompt
  deriving Repr, DecidableEq

/-- The `generate_contextual_image_prompts` result as a function of the article
HTML and the (parsed) API reply. -/
def generate_contextual_image_prompts (article_html : String)
    (apiReply : Option PromptsReply) : Option ImagePromptSet :=
  let _ := (extract_sections_from_html article_html).length
    -- `num_sections`, computed and logged against `num_prompts`; not checked
  match apiReply with
  | none => none
  | some r =>
    match r.hero_prompt, r.section_prompts with
    | some h, some sps => some { hero_prompt := h, section_prompts := sps }
    | _, _ => none

/-- The V4 orchestrator's section-image mapping
(`openai_integration_v4.py:512-517`): it truncates to the shorter of the
prompt list and the persisted-image list; no padding happens in V4. -/
def v4_section_image_mappings (section_prompt_headings : List String)
    (section_image_urls : List String) : List (String × String) :=
  (List.range (min section_prompt_headings.length section_image_urls.length)).map
    fun i => (section_prompt_headings.getD i "", section_image_urls.getD i "")

/-! ## SeeDream image generation (`openai_integration_v4.py:217-345`)

`generate_images_with_seedream` processes each prompt with a `while` loop
(`retry_count <= max_retries and not image_generated`, `max_retries = 1`):
it creates a Replicate prediction, polls its status every second until a
4-minute deadline, and on success/failure/cancel appends exactly one slot to
`results`; on timeout it cancels the stuck prediction and, when retry budget
remains, creates a brand-new prediction.

The external Replicate service is an oracle: per (prompt, attempt) the
environment fixes whether `predictions.create` returns (`createOk`; the
`except` branch of the loop retries or records `None` just like a timeout)
and the status sequence observed by the successive `reload()` calls.  The
4-minute wall-clock deadline with 1-second polling is abstracted to
`maxPolls`, the number of reloads that fit in the window.  The observable
interaction is recorded as an event trace; each attempt's prediction is a
brand-new job identified by its attempt index within the slot. -/

/-- Replicate prediction status as read by `prediction.status`. -/
inductive JobStatus where
  | starting
  | processing
  | succeededWith (output : List String)
  | failedStatus
  | canceledStatus
  deriving Repr, DecidableEq

/-- Whether a status ends the polling loop. -/
def isTerminalStatus : JobStatus → Bool
  | .succeededWith _ => true
  | .failedStatus => true
  | .canceledStatus => true
  | _ => false

/-- The environment's behaviour for one (prompt, attempt) pair. -/
structure AttemptEnv where
  createOk : Bool
  status : Nat → JobStatus

/-- Observable interaction with the image API; the job id is the attempt
index within the slot (every retry creates a brand-new prediction). -/
inductive SeedreamEvent where
  | submit (jobId : Nat)
  | pollEvent (jobId : Nat)
  | cancelEvent (jobId : Nat)
  deriving Repr, DecidableEq

/-- Result of one polling loop. -/
inductive PollOutcome where
  | gotUrl (u : String)
  | noOutput
  | failedOrCanceled
  | timedOut
  deriving Repr, DecidableEq

/-- The polling loop: reload and inspect the status until it is terminal or
the deadline passes; returns the outcome and the number of reloads made.
`remaining` is the number of reloads still inside the 4-minute window, `t`
the index of the next reload. -/
def pollLoop (status : Nat → JobStatus) : Nat → Nat → PollOutcome × Nat
  | 0, t => (.timedOut, t)
  | remaining + 1, t =>
    match status t with
    | .succeededWith output =>
      if output.isEmpty then (.noOutput, t + 1) else (.gotUrl (output.headD ""), t + 1)
    | .failedStatus => (.failedOrCanceled, t + 1)
    | .canceledStatus => (.failedOrCanceled, t + 1)
    | _ => pollLoop status remaining (t + 1)

/-- Result of one attempt of the `while` body. -/
inductive AttemptResult where
  | settled (slot : Option String)
  | timedOutRetryable
  | createFailed
  deriving Repr, DecidableEq

/-- One iteration of the `while` body for attempt `a`: create the prediction
(`createFailed` models the `except` path around the create call), poll it,
and on timeout cancel the stuck prediction. -/
def runAttempt (e : AttemptEnv) (a maxPolls : Nat) : AttemptResult × List SeedreamEvent :=
  if ¬e.createOk then (.createFailed, [])
  else
    let pr := pollLoop e.status maxPolls 0
    let evs := SeedreamEvent.submit a :: List.replicate pr.2 (SeedreamEvent.pollEvent a)
    match pr.1 with
    | .gotUrl u => (.settled (some u), evs)
    | .noOutput => (.settled none, evs)
    | .failedOrCanceled => (.settled none, evs)
    | .timedOut => (.timedOutRetryable, evs ++ [SeedreamEvent.cancelEvent a])

/-- The per-prompt `while` loop: `budget` is the remaining retry budget
(`max_retries - retry_count`), `a` the current attempt index.  A settled
attempt ends the loop with its slot value; a timeout/exception retries while
budget remains and otherwise records `none`. -/
def runSlotGo (env : Nat → AttemptEnv) (maxPolls : Nat) :
    Nat → Nat → Option String × List SeedreamEvent
  | 0, a =>
    match runAttempt (env a) a maxPolls with
    | (.settled r, evs) => (r, evs)
    | (_, evs) => (none, evs)
  | b + 1, a =>
    match runAttempt (env a) a maxPolls with
    | (.settled r, evs) => (r, evs)
    | (_, evs) =>
      let nxt := runSlotGo env maxPolls b (a + 1)
      (nxt.1, evs ++ nxt.2)

/-- One prompt slot: attempt 0 with retry budget `max_retries = 1`. -/
def runSlot (env : Nat → AttemptEnv) (maxPolls : Nat) :
    Option String × List SeedreamEvent :=
  runSlotGo env maxPolls 1 0

/-- Model of `generate_images_with_seedream(prompts, user_id, aspect_ratio)`:
without an API token the function returns `[None] * len(prompts)`;
otherwise it processes the prompts in order, appending exactly the slot
value produced by each prompt's while loop. -/
def generate_images_with_seedream (tokenPresent : Bool)
    (env : Nat → Nat → AttemptEnv) (maxPolls : Nat) (prompts : List String) :
    List (Option String) :=
  if ¬tokenPresent then List.replicate prompts.length none
  else (List.range prompts.length).foldl
    (fun results i => results ++ [(runSlot (env i) maxPolls).1]) []

/-- An attempt succeeds when its prediction is created and reaches
`succeeded` with non-empty output inside the polling window. -/
def attemptSucceeds (e : AttemptEnv) (maxPolls : Nat) : Bool :=
  e.createOk &&
    match (pollLoop e.status maxPolls 0).1 with
    | .gotUrl _ => true
    | _ => false

/-- A job is stuck when it was created but its status never becomes terminal
within the polling window — it "never reaches `succeeded` within the
timeout". -/
def jobStuck (e : AttemptEnv) (maxPolls : Nat) : Prop :=
  e.createOk = true ∧ ∀ t, t < maxPolls → isTerminalStatus (e.status t) = false

/-- The job id an event belongs to. -/
def eventJobId : SeedreamEvent → Nat
  | .submit j => j
  | .pollEvent j => j
  | .cancelEvent j => j

/-- Whether an event is a submission (a `predictions.create` call). -/
def isSubmitEvent : SeedreamEvent → Bool
  | .submit _ => true
  | _ => false

/-! ## Template layout assembler (`magazine_formatter.py`)

`apply_magazine_styling` parses the article body with BeautifulSoup and
rewrites the tree.  The parsed document is modelled by the rose tree
`Node`/`NodeList`: an article's `html` field enters the model already
parsed (the BeautifulSoup parse is deterministic, so this does not affect
the determinism claim).  Component builder fragments are modelled as their
parsed trees, with the purely cosmetic indentation/newline text nodes of
the Python triple-quoted literals elided, and component text fields treated
as text; BS4's output entity escaping is likewise not re-modelled.  These
elisions affect only the concrete bytes of the output, not which inputs
produce which tree shapes. -/

mutual
/-- A parsed HTML node: a text node or an element with ordered attributes
and children. -/
inductive Node where
  | text (s : String)
  | elem (tag : String) (attrs : List (String × String)) (children : NodeList)

/-- A sequence of sibling nodes. -/
inductive NodeList where
  | nil
  | cons (n : Node) (l : NodeList)
end

/-- Read of a BS4 attribute, `tag.get(k)`. -/
def getAttr (attrs : List (String × String)) (k : String) : Option String :=
  (attrs.find? fun kv => kv.1 = k).map fun kv => kv.2

/-- Write of a BS4 attribute: replace in place, else append. -/
def setAttr : List (String × String) → String → String → List (String × String)
  | [], k, v => [(k, v)]
  | kv :: rest, k, v => if kv.1 = k then (k, v) :: rest else kv :: setAttr rest k v

/-- Split a string on whitespace runs, dropping empties (BS4 parses the
`class` attribute into such a token list). -/
def splitWsTokens (s : String) : List String :=
  ((s.toList.splitOnP isPyWs).filter fun w => ¬w.isEmpty).map String.mk

/-- BS4 `find_all` with a class filter class test: the class token
list contains `c`. -/
def hasClass (attrs : List (String × String)) (c : String) : Bool :=
  (splitWsTokens ((getAttr attrs "class").getD "")).contains c

/-- Python `str.replace(pat, repl)` (all occurrences), fuel-indexed; the
fuel is the input length, never exceeded by the remaining input.  The
callers only use non-empty patterns. -/
def listReplaceGo (needle repl : List Char) : Nat → List Char → List Char
  | 0, _ => []
  | _ + 1, [] => []
  | fuel + 1, c :: cs =>
    if needle ≠ [] ∧ needle.isPrefixOf (c :: cs) then
      repl ++ listReplaceGo needle repl fuel ((c :: cs).drop needle.length)
    else c :: listReplaceGo needle repl fuel cs

/-- Python `s.replace(pat, repl)`. -/
def strReplace (s pat repl : String) : String :=
  if pat = "" then s
  else String.mk (listReplaceGo pat.toList repl.toList s.toList.length s.toList)

mutual
/-- BS4 `get_text(strip=True)` on one node: every string fragment is
stripped and the fragments are concatenated. -/
def getTextStripN : Node → String
  | .text s => pyStrip s
  | .elem _ _ cs => getTextStripL cs

/-- BS4 `get_text(strip=True)` over a sibling list. -/
def getTextStripL : NodeList → String
  | .nil => ""
  | .cons n l => getTextStripN n ++ getTextStripL l
end

mutual
/-- The stripped texts of all `h2` elements, in document (pre-)order —
the candidates examined by `insert_component_after_heading`. -/
def h2TextsN : Node → List String
  | .text _ => []
  | .elem t _ cs => (if t = "h2" then [getTextStripL cs] else []) ++ h2TextsL cs

/-- Extension of `h2TextsN` to a sibling list. -/
def h2TextsL : NodeList → List String
  | .nil => []
  | .cons n l => h2TextsN n ++ h2TextsL l
end

mutual
/-- Number of `p` elements in a node's subtree (`len` of the `find_all` result for `p` tags). -/
def countPN : Node → Nat
  | .text _ => 0
  | .elem t _ cs => (if t = "p" then 1 else 0) + countPL cs

/-- Number of `p` elements under a sibling list. -/
def countPL : NodeList → Nat
  | .nil => 0
  | .cons n l => countPN n + countPL l
end

mutual
/-- Remove the first `h1` element in pre-order
(`find` for the first `h1` plus `decompose()`); the flag records whether one was found. -/
def removeH1N : Node → Node × Bool
  | .text s => (.text s, false)
  | .elem t a cs =>
    let r := removeH1L cs
    (.elem t a r.1, r.2)

/-- Extension of `removeH1N` to a sibling list; a found `h1` is removed from its
parent's child list. -/
def removeH1L : NodeList → NodeList × Bool
  | .nil => (.nil, false)
  | .cons n l =>
    match n with
    | .elem t a cs =>
      if t = "h1" then (l, true)
      else
        let rn := removeH1L cs
        if rn.2 then (.cons (.elem t a rn.1) l, true)
        else
          let rl := removeH1L l
          (.cons (.elem t a cs) rl.1, rl.2)
    | .text s =>
      let rl := removeH1L l
      (.cons (.text s) rl.1, rl.2)
end

mutual
/-- The `insert_component_after_heading` search step on one node: a match can
only be completed at sibling-list level, so a node only offers its
children for the pre-order search. -/
def insHafterN (target : String) (comp : Node) : Node → Node × Bool
  | .text s => (.text s, false)
  | .elem t a cs =>
    let r := insHafterL target comp cs
    (.elem t a r.1, r.2)

/-- Model of `insert_component_after_heading(soup, heading_text, component_html)`
(`magazine_formatter.py:439-447`): walk the `h2` elements in document
order; after the first one whose `get_text(strip=True)` equals the stripped
anchor, insert the component as the next sibling and stop.  Without a match
the tree is returned unchanged (only a warning is logged). -/
def insHafterL (target : String) (comp : Node) : NodeList → NodeList × Bool
  | .nil => (.nil, false)
  | .cons n l =>
    match n with
    | .elem t a cs =>
      if t = "h2" ∧ getTextStripL cs = target then
        (.cons (.elem t a cs) (.cons comp l), true)
      else
        let rn := insHafterL target comp cs
        if rn.2 then (.cons (.elem t a rn.1) l, true)
        else
          let rl := insHafterL target comp l
          (.cons (.elem t a cs) rl.1, rl.2)
    | .text s =>
      let rl := insHafterL target comp l
      (.cons (.text s) rl.1, rl.2)
end

/-- The `insert_component_after_heading` entry point: the anchor is stripped
(`heading_text.strip()`) before comparison. -/
def insert_component_after_heading (soup : NodeList) (heading_text : String)
    (comp : Node) : NodeList :=
  (insHafterL (pyStrip heading_text) comp soup).1

/-- The `insert_component_after_paragraph` traversal: thread the number of `p`
elements still to skip; `none` signals that the insertion has been done. -/
def insPafterL (comp : Node) : NodeList → Nat → NodeList × Option Nat
  | .nil, k => (.nil, some k)
  | .cons n l, k =>
    match n with
    | .elem t a cs =>
      if t = "p" then
        match k with
        | 0 => (.cons n (.cons comp l), none)
        | k' + 1 =>
          let rn := insPafterL comp cs k'
          match rn.2 with
          | none => (.cons (.elem t a rn.1) l, none)
          | some k'' =>
            let rl := insPafterL comp l k''
            (.cons (.elem t a rn.1) rl.1, rl.2)
      else
        let rn := insPafterL comp cs k
        match rn.2 with
        | none => (.cons (.elem t a rn.1) l, none)
        | some k'' =>
          let rl := insPafterL comp l k''
          (.cons (.elem t a rn.1) rl.1, rl.2)
    | .text s =>
      let rl := insPafterL comp l k
      (.cons (.text s) rl.1, rl.2)

/-- Model of `insert_component_after_paragraph(soup, paragraph_index, component_html)`
(`magazine_formatter.py:427-437`): guarded by
`0 <= paragraph_index < len(paragraphs)`; out of range is a logged no-op. -/
def insert_component_after_paragraph (soup : NodeList) (paragraph_index : Int)
    (comp : Node) : NodeList :=
  if 0 ≤ paragraph_index ∧ paragraph_index < (countPL soup : Int) then
    (insPafterL comp soup paragraph_index.toNat).1
  else soup

mutual
/-- Generic pass rewriting every `div` carrying a given class, bottom-up
(models a `find_all` snapshot whose every element is mutated in place). -/
def mapDivsN (cls : String) (f : List (String × String) → NodeList → Node) :
    Node → Node
  | .text s => .text s
  | .elem t a cs =>
    let cs' := mapDivsL cls f cs
    if t = "div" ∧ hasClass a cls then f a cs' else .elem t a cs'

/-- Extension of `mapDivsN` to a sibling list. -/
def mapDivsL (cls : String) (f : List (String × String) → NodeList → Node) :
    NodeList → NodeList
  | .nil => .nil
  | .cons n l => .cons (mapDivsN cls f n) (mapDivsL cls f l)
end

mutual
/-- Generic `tag.find(...)`-then-mutate: rewrite the first element (in
pre-order) satisfying the predicate. -/
def styleFirstN (p : String → List (String × String) → Bool)
    (f : String → List (String × String) → NodeList → Node) : Node → Node × Bool
  | .text s => (.text s, false)
  | .elem t a cs =>
    if p t a then (f t a cs, true)
    else
      let r := styleFirstL p f cs
      (.elem t a r.1, r.2)

/-- Extension of `styleFirstN` to a sibling list. -/
def styleFirstL (p : String → List (String × String) → Bool)
    (f : String → List (String × String) → NodeList → Node) :
    NodeList → NodeList × Bool
  | .nil => (.nil, false)
  | .cons n l =>
    let rn := styleFirstN p f n
    if rn.2 then (.cons rn.1 l, true)
    else
      let rl := styleFirstL p f l
      (.cons rn.1 rl.1, rl.2)
end

mutual
/-- Serialization `str(soup)` for one node (BS4 output entity escaping not re-modelled). -/
def serializeN : Node → String
  | .text s => s
  | .elem t a cs =>
    "<" ++ t ++ (a.map fun kv => " " ++ kv.1 ++ "=\"" ++ kv.2 ++ "\"").foldl
      (fun acc x => acc ++ x) "" ++ ">" ++ serializeL cs ++ "</" ++ t ++ ">"

/-- Serialization `str(soup)` for a sibling list. -/
def serializeL : NodeList → String
  | .nil => ""
  | .cons n l => serializeN n ++ serializeL l
end

/-- A component placement instruction: the untyped dict of the source,
with `Option` marking key presence (for `"k" in component` checks) and
`.getD` supplying the `dict.get` defaults. -/
structure Component where
  ctype : String
  content : Option String := none
  number : Option String := none
  description : Option String := none
  title : Option String := none
  profile : Option String := none
  challenge : Option String := none
  solution : Option String := none
  results : Option (List String) := none
  quote : Option String := none
  insert_after_paragraph : Option Int := none
  insert_after_heading : Option String := none

/-- One `{"number", "description"}` entry of `executive_summary.key_stats`. -/
structure StatEntry where
  number : Option String := none
  description : Option String := none

/-- The `executive_summary` object. -/
structure ExecSummary where
  intro : Option String := none
  key_stats : Option (List StatEntry) := none

/-- The structured article data handed to the formatter; `html` enters the
model as its BeautifulSoup parse. -/
structure ArticleData where
  title : Option String := none
  html : NodeList
  components : List Component := []
  executive_summary : Option ExecSummary := none

/-- One section-image mapping entry (heading plus url). -/
structure SectionImage where
  heading : String
  url : String

/-- The optional `{"primary", "accent"}` brand-color dict. -/
structure BrandColors where
  primary : Option String := none
  accent : Option String := none

/-- Model of `build_pull_quote(content)`. -/
def build_pull_quote (content : String) : Node :=
  .elem "div" [("class", "pull-quote")] (.cons (.text content) .nil)

/-- Model of `build_stat_highlight(number, description)`. -/
def build_stat_highlight (number description : String) : Node :=
  .elem "div" [("class", "stat-highlight")]
    (.cons (.elem "div" [("class", "number")] (.cons (.text number) .nil))
      (.cons (.elem "div" [("class", "description")] (.cons (.text description) .nil))
        .nil))

/-- Append the nodes of a plain list to a `NodeList`. -/
def nodesOf : List Node → NodeList
  | [] => .nil
  | n :: l => .cons n (nodesOf l)

/-- Model of `build_case_study(data)`: title/profile/challenge/solution/results/quote
with the source's presence-and-truthiness guards. -/
def build_case_study (c : Component) : Node :=
  let resultsPart : List Node :=
    match c.results with
    | some rs =>
      if rs.isEmpty then []
      else
        [.elem "div" [("class", "results")]
          (.cons (.elem "p" []
              (.cons (.elem "strong" [] (.cons (.text "Results:") .nil)) .nil))
            (.cons (.elem "ul" [] (nodesOf (rs.map fun r =>
                Node.elem "li" [] (.cons (.text r) .nil)))) .nil))]
    | none => []
  let quotePart : List Node :=
    if (c.quote.getD "") = "" then []
    else [.elem "p" [("class", "quote")]
      (.cons (.text ("\"" ++ c.quote.getD "" ++ "\"")) .nil)]
  let profilePart : List Node :=
    if (c.profile.getD "") = "" then []
    else [.elem "p" [("class", "profile")] (.cons (.text (c.profile.getD "")) .nil)]
  .elem "div" [("class", "case-study-box")] (nodesOf
    ([.elem "h4" [] (.cons (.text (c.title.getD "Case Study")) .nil)]
      ++ profilePart
      ++ [.elem "p" [("class", "challenge")]
            (.cons (.elem "strong" [] (.cons (.text "Challenge:") .nil))
              (.cons (.text (" " ++ c.challenge.getD "")) .nil)),
          .elem "p" [("class", "solution")]
            (.cons (.elem "strong" [] (.cons (.text "Solution:") .nil))
              (.cons (.text (" " ++ c.solution.getD "")) .nil))]
      ++ resultsPart ++ quotePart))

/-- Model of `build_sidebar(title, content)` (the raw `content` HTML string is
modelled as text). -/
def build_sidebar (title content : String) : Node :=
  .elem "div" [("class", "sidebar-box")]
    (.cons (.elem "h3" [] (.cons (.text title) .nil))
      (.cons (.text content) .nil))

/-- One iteration of the component-insertion loop of
`apply_magazine_styling` (`magazine_formatter.py:583-626`): dispatch on the
`type` tag; paragraph-anchored kinds insert only when
`insert_after_paragraph` is present, heading-anchored kinds only when
`insert_after_heading` is present; unknown types are skipped. -/
def applyComponent (soup : NodeList) (c : Component) : NodeList :=
  if c.ctype = "pull_quote" then
    match c.insert_after_paragraph with
    | some idx =>
      insert_component_after_paragraph soup (idx - 1) (build_pull_quote (c.content.getD ""))
    | none => soup
  else if c.ctype = "stat_highlight" then
    match c.insert_after_paragraph with
    | some idx =>
      insert_component_after_paragraph soup (idx - 1)
        (build_stat_highlight (c.number.getD "") (c.description.getD ""))
    | none => soup
  else if c.ctype = "case_study" then
    match c.insert_after_heading with
    | some h => insert_component_after_heading soup h (build_case_study c)
    | none => soup
  else if c.ctype = "sidebar" then
    match c.insert_after_heading with
    | some h =>
      insert_component_after_heading soup h
        (build_sidebar (c.title.getD "") (c.content.getD ""))
    | none => soup
  else soup

/-- Model of `section_image_map` built as a dict comprehension
followed by `.get(heading_text)`: a later duplicate heading wins. -/
def sectionImageMapGet (images : List SectionImage) (heading : String) :
    Option String :=
  (images.reverse.find? fun img => img.heading = heading).map fun img => img.url

mutual
/-- The `h2`-wrapping pass (`magazine_formatter.py:628-639`): every `h2`
whose stripped text maps to a (truthy) section-image URL is wrapped in a
`section-header` div carrying the image as `background-image`. -/
def wrapSectN (lookup : String → Option String) : Node → Node
  | .text s => .text s
  | .elem t a cs =>
    let n' := Node.elem t a (wrapSectL lookup cs)
    if t = "h2" then
      match lookup (getTextStripL cs) with
      | some url =>
        if url = "" then n'
        else
          .elem "div"
            [("class", "section-header"),
             ("style", "background-image: url(" ++ url ++ ");")]
            (.cons n' .nil)
      | none => n'
    else n'

/-- Extension of `wrapSectN` to a sibling list. -/
def wrapSectL (lookup : String → Option String) : NodeList → NodeList
  | .nil => .nil
  | .cons n l => .cons (wrapSectN lookup n) (wrapSectL lookup l)
end

/-! ### Inline-style strings

The CSS text of the source's f-strings, with the purely cosmetic newline /
indentation layout of the Python triple-quoted literals elided. -/

/-- Re-styled `section-header` attribute value (21:9 banner). -/
def sectionHeaderStyle (bg : String) : String :=
  "aspect-ratio: 21 / 9; width: 100%; height: auto; min-height: 280px; background-image: url(" ++
    bg ++ "); background-size: cover; background-position: center; border-radius: 16px; display: flex; align-items: flex-end; color: white; margin: 40px 0 24px; position: relative; overflow: hidden;"

/-- Overlay div style inserted at index 0 of each section header. -/
def overlayStyle : String :=
  "position: absolute; inset: 0; background: linear-gradient(180deg, rgba(0,0,0,0) 20%, rgba(0,0,0,0.65) 100%);"

/-- Style applied to the `h2` inside a section header. -/
def h2HeaderStyle : String :=
  "font-family: \x27Playfair Display\x27, Georgia, serif; font-weight: 800; font-size: clamp(1.75em, 3vw, 2.5em); position: relative; z-index: 1; color: white !important; margin: 0 0 14px 16px; text-shadow: 2px 2px 4px rgba(0,0,0,0.9), 0 0 15px rgba(0,0,0,0.7);"

/-- Pull-quote inline style (uses the primary brand color). -/
def pullQuoteStyle (primary : String) : String :=
  "border-left: 5px solid " ++ primary ++
    "; background-color: #f0f9fa; padding: 25px 30px; margin: 30px 0; font-size: 1.3em; font-style: italic; color: #2c3e50; border-radius: 0 8px 8px 0;"

/-- Stat-highlight inline style (uses the accent brand color). -/
def statHighlightStyle (accent : String) : String :=
  "background-color: " ++ accent ++
    "; color: white; padding: 30px; margin: 30px 0; text-align: center; border-radius: 12px;"

/-- Inner `number` div style of a stat highlight. -/
def statNumberStyle : String := "font-size: 3.5em; font-weight: 900; line-height: 1;"

/-- Inner `description` div style of a stat highlight. -/
def statDescStyle : String := "font-size: 1.1em; margin-top: 12px; opacity: 0.95;"

/-- Case-study-box inline style. -/
def caseStudyStyle : String :=
  "background-color: #f5f5f5; border: 2px solid #ddd; border-radius: 12px; padding: 30px; margin: 30px 0;"

/-- The `article_style` f-string. -/
def articleStyle : String :=
  "max-width: 1080px; margin: 0 auto; padding: 0 24px 64px; font-family: Inter, system-ui, sans-serif; line-height: 1.78; font-size: 1.0625rem; color: #171717;"

/-- The hero block f-string (`magazine_formatter.py:646-682`). -/
def heroHtml (title hero_image_url primary accent : String) : String :=
  "<div style=\"aspect-ratio: 16 / 9; width: 100%; height: auto; min-height: 320px; background: linear-gradient(135deg, " ++
    primary ++ " 0%, " ++ accent ++ " 100%); background-image: url(\x27" ++
    hero_image_url ++
    "\x27); background-size: contain; background-position: center; background-repeat: no-repeat; display: flex; flex-direction: column; justify-content: flex-end; align-items: center; text-align: center; color: white; padding: 20px; position: relative; margin-bottom: 60px; border-radius: 12px;\">" ++
    "<div style=\"position: absolute; inset: 0; background: linear-gradient(rgba(0,0,0,0.4), rgba(0,0,0,0.7)); border-radius: 12px;\"></div>" ++
    "<h1 style=\"font-family: \x27Playfair Display\x27, Georgia, serif; font-size: clamp(2.5em, 5vw, 3.5em); margin: 0 0 20px 0; color: white !important; text-shadow: 2px 2px 4px rgba(0,0,0,0.9), 0 0 20px rgba(0,0,0,0.8); line-height: 1.1; position: relative; z-index: 1; max-width: 900px; font-weight: 900;\">" ++
    title ++ "</h1></div>"

/-- One stat card of the executive summary. -/
def statCardHtml (accent : String) (st : StatEntry) : String :=
  "<div style=\"background: white; padding: 25px; border-radius: 10px; text-align: center;\"><div style=\"color: " ++
    accent ++ "; font-size: 3em; font-weight: 900; line-height: 1;\">" ++
    st.number.getD "" ++
    "</div><div style=\"color: #2c3e50; font-size: 1em; margin-top: 12px;\">" ++
    st.description.getD "" ++ "</div></div>"

/-- Model of `build_executive_summary(summary_data, primary_color, accent_color)`
(`magazine_formatter.py:507-534`); a falsy summary yields `""`. -/
def build_executive_summary (summary : Option ExecSummary)
    (primary accent : String) : String :=
  match summary with
  | none => ""
  | some s =>
    let cards := ((s.key_stats.getD []).map (statCardHtml accent)).foldl
      (fun acc x => acc ++ x) ""
    "<div style=\"background: linear-gradient(135deg, " ++ primary ++ " 0%, " ++
      accent ++ " 100%); color: white; padding: 60px 40px; margin-bottom: 40px; border-radius: 12px;\">" ++
      "<h2 style=\"font-family: \x27Playfair Display\x27, Georgia, serif; font-size: 3em; text-align: center; margin-bottom: 40px; font-weight: 800;\">Executive Summary</h2>" ++
      "<div style=\"display: grid; grid-template-columns: repeat(auto-fit, minmax(250px, 1fr)); gap: 20px; margin-bottom: 30px;\">" ++
      cards ++ "</div>" ++
      "<div style=\"max-width: 800px; margin: 0 auto; font-size: 1.1em; line-height: 1.7;\"><p>" ++
      s.intro.getD "" ++ "</p></div></div>"

/-- The section-header re-styling pass (`magazine_formatter.py:687-720`):
recover the background URL from the wrapping style, install the 21:9 inline
style, insert the gradient overlay at index 0 and style the inner `h2`. -/
def styleSectionHeaders (soup : NodeList) : NodeList :=
  mapDivsL "section-header"
    (fun a cs =>
      let sty := (getAttr a "style").getD ""
      let bg := strReplace (strReplace sty "background-image: url(" "") ");" ""
      let csH2 := (styleFirstL (fun t _ => t = "h2")
        (fun t a2 cs2 => .elem t (setAttr a2 "style" h2HeaderStyle) cs2) cs).1
      .elem "div" (setAttr a "style" (sectionHeaderStyle bg))
        (.cons (.elem "div" [("style", overlayStyle)] .nil) csH2))
    soup

/-- The component re-styling passes (`magazine_formatter.py:723-758`). -/
def styleComponents (soup : NodeList) (primary accent : String) : NodeList :=
  let s1 := mapDivsL "pull-quote"
    (fun a cs => .elem "div" (setAttr a "style" (pullQuoteStyle primary)) cs) soup
  let s2 := mapDivsL "stat-highlight"
    (fun a cs =>
      let csN := (styleFirstL (fun t a2 => t = "div" ∧ hasClass a2 "number")
        (fun t a2 cs2 => .elem t (setAttr a2 "style" statNumberStyle) cs2) cs).1
      let csD := (styleFirstL (fun t a2 => t = "div" ∧ hasClass a2 "description")
        (fun t a2 cs2 => .elem t (setAttr a2 "style" statDescStyle) cs2) csN).1
      .elem "div" (setAttr a "style" (statHighlightStyle accent)) csD) s1
  mapDivsL "case-study-box"
    (fun a cs => .elem "div" (setAttr a "style" caseStudyStyle) cs) s2

/-- Model of `apply_magazine_styling(article_data, hero_image_url, section_images,
user_id, brand_colors)` (`magazine_formatter.py:537-817`).

`userEnv` models the contents of the per-user `.env` file loaded by
`load_user_env(user_id)` (the function body reads nothing from it) and
`now` models the wall clock, which the source consults only inside its
`except` fallback; for well-typed inputs no step of the body raises, so the
assembled document is the `try` body's result. -/
def apply_magazine_styling (userEnv : List (String × String)) (now : String)
    (article_data : ArticleData) (hero_image_url : String)
    (section_images : List SectionImage) (brand_colors : Option BrandColors) :
    Option String :=
  let _ := userEnv
  let _ := now
  let title := article_data.title.getD "Article"
  let soup0 := article_data.html
  let soup1 := (removeH1L soup0).1
  let soup2 := article_data.components.foldl applyComponent soup1
  let soup3 := wrapSectL (sectionImageMapGet section_images) soup2
  let primary :=
    match brand_colors with
    | some bc => bc.primary.getD "#08b2c6"
    | none => "#08b2c6"
  let accent :=
    match brand_colors with
    | some bc => bc.accent.getD "#ff6b11"
    | none => "#ff6b11"
  let hero := heroHtml title hero_image_url primary accent
  let execHtml := build_executive_summary article_data.executive_summary primary accent
  let soup4 := styleSectionHeaders soup3
  let soup5 := styleComponents soup4 primary accent
  some ("<div style=\"max-width: 1200px; margin: 0 auto; background-color: #fff; padding: 0;\">" ++
    hero ++ execHtml ++ "<div style=\"" ++ articleStyle ++ "\">" ++
    serializeL soup5 ++ "</div></div>")

/-- Whether a component's anchor would place it
(the dispatch of `apply_magazine_styling` plus the two insertion guards):
paragraph-anchored kinds need an in-range index, heading-anchored kinds an
`h2` whose stripped text equals the stripped anchor. -/
def componentWouldInsert (soup : NodeList) (c : Component) : Bool :=
  if c.ctype = "pull_quote" ∨ c.ctype = "stat_highlight" then
    match c.insert_after_paragraph with
    | some idx => 0 ≤ idx - 1 ∧ idx - 1 < (countPL soup : Int)
    | none => false
  else if c.ctype = "case_study" ∨ c.ctype = "sidebar" then
    match c.insert_after_heading with
    | some h => decide (pyStrip h ∈ h2TextsL soup)
    | none => false
  else false

/-! ## Concrete fixtures used by witnesses and counterexamples -/

/-- A parsed article body holding a single `<h2>Heading</h2>`. -/
def soupOneH2 : NodeList :=
  .cons (.elem "h2" [] (.cons (.text "Heading") .nil)) .nil

/-- A bare case-study box used as a component fragment. -/
def caseStudyBox : Node := .elem "div" [("class", "case-study-box")] .nil

/-- A case-study component whose anchor matches no heading. -/
def danglingCaseStudy : Component :=
  { ctype := "case_study", insert_after_heading := some "Nope" }

/-- An admin user row whose legacy `credit_balance` column is NULL. -/
def adminNullDb : CreditDb :=
  { user :=
      { is_admin := true, credit_balance := none,
        total_articles_generated := none, total_spent := none,
        auto_recharge_enabled := false, auto_recharge_threshold := 0,
        auto_recharge_amount := 0, stripe_payment_method_present := false }
    txns := [] }

/-- A non-admin user one credit above zero with auto-recharge configured
($25 top-up below a threshold of 5). -/
def rechargingDb : CreditDb :=
  { user :=
      { is_admin := false, credit_balance := some 1,
        total_articles_generated := some 5, total_spent := some 0,
        auto_recharge_enabled := true, auto_recharge_threshold := 5,
        auto_recharge_amount := 25, stripe_payment_method_present := true }
    txns := [] }

/-- Three outline sections with headings. -/
def threeSections : List OutlineSection :=
  [⟨some "Alpha"⟩, ⟨some "Beta"⟩, ⟨some "Gamma"⟩]

/-- An API reply carrying both keys but only one section prompt. -/
def shortReply : PromptsReply :=
  { hero_prompt := some "H", section_prompts := some [⟨"One", "p1"⟩] }

/-- A two-section article body for the prompt-count-mismatch scenario. -/
def twoSectionHtml : String := "<h2>One</h2><p>a</p><h2>Two</h2><p>b</p>"

end EZWAI

namespace EZWAI

/-! # Theorems -/

/-! ## C3 — the V4 final validation gate -/

/-- C3 counterexample: a final HTML containing both the string
`background-image` and the hero identifier still fails the gate when it has
no `style="` inline-style marker, so the gate does not pass "if and only if"
those two strings appear. -/
theorem v4_validation_gate_counterexample :
    strContains "background-image HERO" "background-image" = true
    ∧ strContains "background-image HERO" "HERO" = true
    ∧ v4_final_validation false "background-image HERO" "HERO" [] true
        = some "CSS styling missing" := by
  refine ⟨by decide, by decide, by decide⟩

/-- C3 (amended): in remote mode the V4 gate passes iff the HTML contains
`style="`, `background-image`, and the hero identifier; its verdict names
the failed check and never depends on the section-image URLs or the
executive-summary flag (missing section images cannot hard-fail it). -/
theorem v4_validation_gate_characterization (final_html hero : String)
    (urls urls2 : List String) (hasES hasES2 : Bool) :
    (v4_final_validation false final_html hero urls hasES = none
      ↔ (strContains final_html "style=\"" = true
          ∧ strContains final_html "background-image" = true
          ∧ strContains final_html hero = true))
    ∧ v4_final_validation false final_html hero urls hasES
        = v4_final_validation false final_html hero urls2 hasES2
    ∧ (v4_final_validation false final_html hero urls hasES = none
        ∨ v4_final_validation false final_html hero urls hasES
            = some "CSS styling missing"
        ∨ v4_final_validation false final_html hero urls hasES
            = some "Hero section missing") := by
  unfold v4_final_validation
  refine ⟨?_, ?_, ?_⟩ <;> split_ifs <;> simp_all

/-! ## C4 — prompt-count mismatch handling in the prompt generator -/

/-- C4 counterexample: for an article with 2 extracted sections and a parsed
reply carrying only 1 section prompt, the component returns the parsed set
unchanged (it does not raise or return `None` on the mismatch). -/
theorem prompt_mismatch_counterexample :
    (extract_sections_from_html twoSectionHtml).length = 2
    ∧ (shortReply.section_prompts.getD []).length = 1
    ∧ generate_contextual_image_prompts twoSectionHtml (some shortReply)
        = some { hero_prompt := "H", section_prompts := [⟨"One", "p1"⟩] } := by
  refine ⟨by decide, by decide, by decide⟩

/-- C4 (amended): the component returns `None` only for an empty/unparsable
reply or one missing `hero_prompt`/`section_prompts`; a reply carrying both
keys is returned as-is regardless of how its section-prompt count compares
with the extracted section count — padding/truncation is left to callers. -/
theorem prompt_generator_returns_parsed_reply (html : String)
    (r : PromptsReply) (h : String) (sps : List SectionPrompt)
    (hh : r.hero_prompt = some h) (hs : r.section_prompts = some sps) :
    generate_contextual_image_prompts html (some r)
        = some { hero_prompt := h, section_prompts := sps }
    ∧ generate_contextual_image_prompts html none = none
    ∧ (∀ r2 : PromptsReply,
        r2.hero_prompt = none ∨ r2.section_prompts = none →
        generate_contextual_image_prompts html (some r2) = none) := by
  refine ⟨?_, rfl, ?_⟩
  · simp [generate_contextual_image_prompts, hh, hs]
  · intro r2 h2
    rcases r2 with ⟨hp, sp⟩
    rcases h2 with h2 | h2 <;> simp only at h2 <;> subst h2
    · cases sp <;> rfl
    · cases hp <;> rfl

/-- C4 witness: the amended theorem applied to the concrete mismatching
fixture. -/
theorem prompt_generator_returns_parsed_reply_witness :
    generate_contextual_image_prompts twoSectionHtml (some shortReply)
        = some { hero_prompt := "H", section_prompts := [⟨"One", "p1"⟩] } :=
  (prompt_generator_returns_parsed_reply twoSectionHtml shortReply "H"
    [⟨"One", "p1"⟩] rfl rfl).1

/-! ## C5 — the V3 orchestrator's fallback prompt padding -/

/-- C5 counterexample: with 3 sections and a returned prompt list of length
3 (hero + 2 section prompts), the fallback produces 3 section prompts but
none of them contains the literal article title — the padded prompts are
built from the section headings instead. -/
theorem v3_fallback_title_counterexample :
    (v3_image_prompts ["h", "p1", "p2"] "Quantum Surge" threeSections).length = 4
    ∧ (v3_image_prompts ["h", "p1", "p2"] "Quantum Surge" threeSections).drop 1
        = ["Photorealistic editorial magazine photo — Alpha",
           "Photorealistic editorial magazine photo — Beta",
           "Photorealistic editorial magazine photo — Gamma"]
    ∧ ∀ p ∈ (v3_image_prompts ["h", "p1", "p2"] "Quantum Surge" threeSections).drop 1,
        strContains p "Quantum Surge" = false := by
  refine ⟨by decide, by decide, by decide⟩

/-- C5 (amended): on a prompt-count mismatch the V3 orchestrator replaces
the whole list: one hero prompt containing the literal article title,
followed by one template prompt per section containing that section's
heading.  With 3 sections this yields exactly 3 section prompts (never a
truncation to 2); title-bearing `"(detail)"` pads would be used only with
fewer sections than needed. -/
theorem v3_fallback_prompt_padding (returned : List String) (title : String)
    (sections : List OutlineSection) (hlen : returned.length ≠ 4)
    (hsec : sections.length = 3) :
    v3_image_prompts returned title sections =
      ("Photorealistic editorial magazine photo — " ++ title) ::
        sections.map
          (fun s => "Photorealistic editorial magazine photo — " ++ s.h2.getD "Section") := by
  obtain ⟨a, b, c, rfl⟩ := List.length_eq_three.mp hsec
  simp [v3_image_prompts, hlen, v3_fallback_prompts]

/-- C5 witness: the amended theorem at a concrete mismatching input. -/
theorem v3_fallback_prompt_padding_witness :
    v3_image_prompts [] "T" threeSections =
      ("Photorealistic editorial magazine photo — T") ::
        threeSections.map
          (fun s => "Photorealistic editorial magazine photo — " ++ s.h2.getD "Section") :=
  v3_fallback_prompt_padding [] "T" threeSections (by decide) (by decide)

/-! ## C7 — determinism of the template layout assembler -/

/-- C7: the template strategy's output is a function of the article data,
hero URL, section-image set and brand colors alone — it does not consult
the ambient environment or the clock (used only on the unreachable
exception path), so two runs on the same input are byte-identical. -/
theorem template_formatter_deterministic (e1 e2 : List (String × String))
    (t1 t2 : String) (article : ArticleData) (hero : String)
    (imgs : List SectionImage) (colors : Option BrandColors) :
    apply_magazine_styling e1 t1 article hero imgs colors
      = apply_magazine_styling e2 t2 article hero imgs colors := rfl

/-! ## C1 — batch shape of `generate_images_with_seedream` -/

/-- Appending one image per prompt builds the mapped list. -/
theorem foldl_append_singleton {α β : Type} (f : β → α) (l : List β)
    (acc : List α) :
    l.foldl (fun a i => a ++ [f i]) acc = acc ++ l.map f := by
  induction l generalizing acc with
  | nil => simp
  | cons x xs ih => simp [ih]

/-- A slot whose every attempt fails ends with `none`, whatever the retry
budget and attempt offset. -/
theorem runSlotGo_fail_none (env : Nat → AttemptEnv) (maxPolls : Nat)
    (hfail : ∀ k, attemptSucceeds (env k) maxPolls = false) :
    ∀ budget a, (runSlotGo env maxPolls budget a).1 = none := by
  intro budget
  induction budget with
  | zero =>
    intro a
    have h := hfail a
    unfold attemptSucceeds at h
    unfold runSlotGo runAttempt
    by_cases hc : (env a).createOk
    · simp only [hc, Bool.true_and] at h
      simp only [hc, not_true_eq_false, if_false]
      cases hpo : (pollLoop (env a).status maxPolls 0).1 <;>
        simp [hpo] at h ⊢
    · simp [hc]
  | succ n ih =>
    intro a
    have h := hfail a
    unfold attemptSucceeds at h
    unfold runSlotGo runAttempt
    by_cases hc : (env a).createOk
    · simp only [hc, Bool.true_and] at h
      simp only [hc, not_true_eq_false, if_false]
      cases hpo : (pollLoop (env a).status maxPolls 0).1 <;>
        simp [hpo, ih] at h ⊢
    · simp [hc, ih]

/-- C1: the image generator returns exactly one slot per prompt — never a
shorter or longer list — with slot `i` produced by the job loop of prompt `i`
loop (order preserved) and `none` in every slot whose attempts all failed,
were canceled, or timed out after retries. -/
theorem seedream_batch_shape (tokenPresent : Bool)
    (env : Nat → Nat → AttemptEnv) (maxPolls : Nat) (prompts : List String) :
    (generate_images_with_seedream tokenPresent env maxPolls prompts).length
        = prompts.length
    ∧ (tokenPresent = true → ∀ i, i < prompts.length →
        (generate_images_with_seedream tokenPresent env maxPolls prompts).getD i none
          = (runSlot (env i) maxPolls).1)
    ∧ (∀ i, i < prompts.length →
        (∀ a, attemptSucceeds (env i a) maxPolls = false) →
        (generate_images_with_seedream tokenPresent env maxPolls prompts).getD i none
          = none) := by
  cases tokenPresent with
  | false =>
    refine ⟨?_, ?_, ?_⟩
    · simp [generate_images_with_seedream]
    · intro h; exact absurd h (by simp)
    · intro i hi _
      simp [generate_images_with_seedream, List.getD,
        List.getElem?_replicate, hi]
  | true =>
    have hfold : generate_images_with_seedream true env maxPolls prompts
        = (List.range prompts.length).map fun i => (runSlot (env i) maxPolls).1 := by
      simp only [generate_images_with_seedream, Bool.not_true]
      rw [if_neg (by simp)]
      exact foldl_append_singleton _ _ []
    refine ⟨?_, ?_, ?_⟩
    · simp [hfold]
    · intro _ i hi
      simp [hfold, List.getD, List.getElem?_map, List.getElem?_range hi]
    · intro i hi hf
      have : (runSlot (env i) maxPolls).1 = none :=
        runSlotGo_fail_none (env i) maxPolls hf 1 0
      simp [hfold, List.getD, List.getElem?_map, List.getElem?_range hi, this]

/-- C1 witness: a single-prompt batch whose only job fails still yields a
one-element list holding `none`. -/
theorem seedream_batch_shape_witness :
    (generate_images_with_seedream true
        (fun _ _ => ⟨true, fun _ => JobStatus.failedStatus⟩) 1 ["p"]).getD 0 none
      = none :=
  (seedream_batch_shape true (fun _ _ => ⟨true, fun _ => JobStatus.failedStatus⟩)
      1 ["p"]).2.2 0 (by decide) (fun _ => rfl)

/-! ## C2 — timeout, cancel and retry discipline per job -/

/-- A job whose status stays non-terminal for the whole window makes the
polling loop time out after exactly `rem` reloads. -/
theorem pollLoop_stuck (status : Nat → JobStatus) :
    ∀ rem t, (∀ k, k < rem → isTerminalStatus (status (t + k)) = false) →
    pollLoop status rem t = (.timedOut, t + rem) := by
  intro rem
  induction rem with
  | zero => intro t _; simp [pollLoop]
  | succ n ih =>
    intro t h
    have h0 : isTerminalStatus (status t) = false := by
      simpa using h 0 (Nat.succ_pos n)
    have hrec : pollLoop status n (t + 1) = (.timedOut, t + 1 + n) := by
      refine ih (t + 1) fun k hk => ?_
      have := h (k + 1) (Nat.succ_lt_succ hk)
      simpa [Nat.add_assoc, Nat.add_comm 1 k] using this
    unfold pollLoop
    cases hs : status t <;> simp [hs, isTerminalStatus] at h0 ⊢ <;>
      rw [hrec] <;> (congr 1; omega)

/-- A stuck attempt submits, polls out the whole window, and cancels. -/
theorem runAttempt_stuck (e : AttemptEnv) (a maxPolls : Nat)
    (h : jobStuck e maxPolls) :
    runAttempt e a maxPolls =
      (.timedOutRetryable,
        SeedreamEvent.submit a ::
          (List.replicate maxPolls (SeedreamEvent.pollEvent a)
            ++ [SeedreamEvent.cancelEvent a])) := by
  obtain ⟨hc, hs⟩ := h
  have hp : pollLoop e.status maxPolls 0 = (.timedOut, maxPolls) := by
    have := pollLoop_stuck e.status maxPolls 0 fun k hk => by simpa using hs k hk
    simpa using this
  unfold runAttempt
  simp [hc, hp]

/-- Every event of an attempt carries that attempt's job id. -/
theorem runAttempt_jobIds (e : AttemptEnv) (a maxPolls : Nat) :
    ∀ ev ∈ (runAttempt e a maxPolls).2, eventJobId ev = a := by
  intro ev hev
  unfold runAttempt at hev
  by_cases hc : e.createOk
  · simp only [hc, not_true_eq_false, if_false] at hev
    cases hpo : (pollLoop e.status maxPolls 0).1 <;>
      simp only [hpo, List.mem_cons, List.mem_append, List.mem_replicate,
        List.mem_singleton] at hev <;>
      (casesm* _ ∨ _, _ ∧ _) <;> first | (subst_vars; rfl) | simp_all
  · simp [hc] at hev

/-- An attempt submits at most one prediction. -/
theorem runAttempt_submit_le_one (e : AttemptEnv) (a maxPolls : Nat) :
    (((runAttempt e a maxPolls).2).filter isSubmitEvent).length ≤ 1 := by
  unfold runAttempt
  by_cases hc : e.createOk
  · simp only [hc, not_true_eq_false, if_false]
    cases hpo : (pollLoop e.status maxPolls 0).1 <;>
      simp [hpo, isSubmitEvent, List.filter_append, List.filter_replicate]
  · simp [hc]

/-- An attempt that does create its prediction submits it exactly once. -/
theorem runAttempt_submit_self (e : AttemptEnv) (a maxPolls : Nat)
    (hc : e.createOk = true) :
    ((runAttempt e a maxPolls).2).count (SeedreamEvent.submit a) = 1 := by
  unfold runAttempt
  simp only [hc, not_true_eq_false, if_false]
  cases hpo : (pollLoop e.status maxPolls 0).1 <;>
    simp [hpo, List.count_cons, List.count_append, List.count_replicate]

/-- Unfolding lemma for the budget-0 case of the slot loop. -/
theorem runSlotGo_zero (env : Nat → AttemptEnv) (maxPolls a : Nat) :
    runSlotGo env maxPolls 0 a =
      match runAttempt (env a) a maxPolls with
      | (.settled r, evs) => (r, evs)
      | (_, evs) => (none, evs) := by
  rw [runSlotGo]

/-- Unfolding lemma for the positive-budget case of the slot loop. -/
theorem runSlotGo_succ (env : Nat → AttemptEnv) (maxPolls b a : Nat) :
    runSlotGo env maxPolls (b + 1) a =
      match runAttempt (env a) a maxPolls with
      | (.settled r, evs) => (r, evs)
      | (_, evs) =>
        ((runSlotGo env maxPolls b (a + 1)).1,
          evs ++ (runSlotGo env maxPolls b (a + 1)).2) := by
  rw [runSlotGo]

/-- With no retry budget left, the recorded events are exactly those of the
one attempt made. -/
theorem runSlotGo_zero_events (env : Nat → AttemptEnv) (maxPolls a : Nat) :
    (runSlotGo env maxPolls 0 a).2 = (runAttempt (env a) a maxPolls).2 := by
  rw [runSlotGo_zero]
  rcases hr : runAttempt (env a) a maxPolls with ⟨res, evs⟩
  cases res <;> simp

/-- C2: a slot whose first job never reaches a terminal status within the
window cancels that job exactly once and never polls or resubmits it again
afterwards; in total at most two predictions are ever created for the slot
(no third attempt); a second prediction is created exactly once whenever
the retried create succeeds; and if the retry is equally stuck it too is
canceled exactly once and the slot settles to `none`. -/
theorem seedream_timeout_cancel_retry (env : Nat → AttemptEnv) (maxPolls : Nat)
    (h0 : jobStuck (env 0) maxPolls) :
    ((runSlot env maxPolls).2.count (SeedreamEvent.cancelEvent 0) = 1)
    ∧ (((runSlot env maxPolls).2.filter isSubmitEvent).length ≤ 2)
    ∧ (∃ pre suf, (runSlot env maxPolls).2
          = pre ++ SeedreamEvent.cancelEvent 0 :: suf
        ∧ SeedreamEvent.pollEvent 0 ∉ suf ∧ SeedreamEvent.submit 0 ∉ suf)
    ∧ ((env 1).createOk = true →
        (runSlot env maxPolls).2.count (SeedreamEvent.submit 1) = 1)
    ∧ (jobStuck (env 1) maxPolls →
        (runSlot env maxPolls).2.count (SeedreamEvent.cancelEvent 1) = 1
        ∧ (runSlot env maxPolls).1 = none) := by
  have hA0 := runAttempt_stuck (env 0) 0 maxPolls h0
  have hslot : runSlot env maxPolls
      = ((runSlotGo env maxPolls 0 1).1,
          SeedreamEvent.submit 0 ::
            (List.replicate maxPolls (SeedreamEvent.pollEvent 0)
              ++ SeedreamEvent.cancelEvent 0 :: (runSlotGo env maxPolls 0 1).2)) := by
    have hstep := runSlotGo_succ env maxPolls 0 0
    rw [hA0] at hstep
    simpa [runSlot] using hstep
  have htailIds : ∀ ev ∈ (runSlotGo env maxPolls 0 1).2, eventJobId ev = 1 := by
    rw [runSlotGo_zero_events]
    exact runAttempt_jobIds (env 1) 1 maxPolls
  have hnc0 : (runSlotGo env maxPolls 0 1).2.count (SeedreamEvent.cancelEvent 0) = 0 := by
    rw [List.count_eq_zero]
    intro hmem
    exact absurd (htailIds _ hmem) (by simp [eventJobId])
  have hnp0 : SeedreamEvent.pollEvent 0 ∉ (runSlotGo env maxPolls 0 1).2 := by
    intro hmem
    exact absurd (htailIds _ hmem) (by simp [eventJobId])
  have hns0 : SeedreamEvent.submit 0 ∉ (runSlotGo env maxPolls 0 1).2 := by
    intro hmem
    exact absurd (htailIds _ hmem) (by simp [eventJobId])
  refine ⟨?_, ?_, ?_, ?_, ?_⟩
  · rw [hslot]
    simp [List.count_cons, List.count_append, List.count_replicate, hnc0]
  · rw [hslot]
    have hle := runAttempt_submit_le_one (env 1) 1 maxPolls
    rw [← runSlotGo_zero_events env maxPolls 1] at hle
    simp [List.filter_cons, List.filter_append, List.filter_replicate,
      isSubmitEvent]
    omega
  · refine ⟨SeedreamEvent.submit 0 ::
        List.replicate maxPolls (SeedreamEvent.pollEvent 0),
      (runSlotGo env maxPolls 0 1).2, ?_, hnp0, hns0⟩
    rw [hslot]
    rfl
  · intro hc1
    have hcnt := runAttempt_submit_self (env 1) 1 maxPolls hc1
    rw [← runSlotGo_zero_events env maxPolls 1] at hcnt
    rw [hslot]
    simp [List.count_cons, List.count_append, List.count_replicate, hcnt]
  · intro h1
    have hA1 := runAttempt_stuck (env 1) 1 maxPolls h1
    have htail : runSlotGo env maxPolls 0 1
        = (none, SeedreamEvent.submit 1 ::
            (List.replicate maxPolls (SeedreamEvent.pollEvent 1)
              ++ [SeedreamEvent.cancelEvent 1])) := by
      rw [runSlotGo_zero, hA1]
    rw [hslot, htail]
    simp [List.count_cons, List.count_append, List.count_replicate]

/-- C2 witness: first job stuck for a 2-reload window, retry succeeding —
the stuck job is canceled once and the retry is submitted once. -/
theorem seedream_timeout_cancel_retry_witness :
    ((runSlot (fun a => if a = 0 then ⟨true, fun _ => JobStatus.processing⟩
        else ⟨true, fun _ => JobStatus.succeededWith ["u"]⟩) 2).2.count
        (SeedreamEvent.cancelEvent 0) = 1)
    ∧ ((runSlot (fun a => if a = 0 then ⟨true, fun _ => JobStatus.processing⟩
        else ⟨true, fun _ => JobStatus.succeededWith ["u"]⟩) 2).2.count
        (SeedreamEvent.submit 1) = 1) := by
  have h := seedream_timeout_cancel_retry
    (fun a => if a = 0 then ⟨true, fun _ => JobStatus.processing⟩
      else ⟨true, fun _ => JobStatus.succeededWith ["u"]⟩) 2
    ⟨rfl, fun t _ => rfl⟩
  exact ⟨h.1, h.2.2.2.1 rfl⟩

/-! ## C10 — section extraction is driven by `h2` elements alone -/

/-- The 300-character preview (plus the 3-character ellipsis) never exceeds
303 characters. -/
theorem preview300_length_le (s : String) :
    (preview300 s).toList.length ≤ 303 := by
  unfold preview300
  split_ifs with h
  · have : (String.mk (s.toList.take 300) ++ "...").toList
        = s.toList.take 300 ++ "...".toList := by
      simp [String.toList]
    rw [this, List.length_append, List.length_take]
    have : min 300 s.toList.length ≤ 300 := Nat.min_le_left _ _
    simp
  · omega

/-- A document with no case-insensitive `<h2` occurrence has no match. -/
theorem findFirstH2_none_of_no_open :
    ∀ cs : List Char, containsCi cs "<h2".toList = false →
    findFirstH2 cs = none := by
  intro cs
  induction cs with
  | nil => intro _; rfl
  | cons c cs ih =>
    intro h
    simp only [containsCi, List.tails_cons, List.any_cons, Bool.or_eq_false_iff] at h
    have h1 : ciIsPrefix "<h2".toList (c :: cs) = false := h.1
    have h2 : containsCi cs "<h2".toList = false := by
      simpa [containsCi] using h.2
    have hm : matchH2At (c :: cs) = none := by
      unfold matchH2At
      rw [h1]
      rfl
    unfold findFirstH2
    rw [hm, ih h2]
    rfl

/-- C10: `extract_sections_from_html` builds exactly one section per
`<h2[^>]*>(.*?)</h2>` match, in document order, each with the
whitespace-normalised heading and the tag-stripped 300-character preview of
the inter-heading content; every section content fits in 303 characters;
and a document with no `<h2` open tag — whatever `<h1>`/`<h3>` headings it
has — yields no sections. -/
theorem extract_sections_h2_only (html : String) :
    extract_sections_from_html html = (h2Sections html.toList).map mkHtmlSection
    ∧ (extract_sections_from_html html).length = (h2Sections html.toList).length
    ∧ (∀ s ∈ extract_sections_from_html html, s.content.toList.length ≤ 303)
    ∧ (hasH2OpenTag html = false → extract_sections_from_html html = []) := by
  refine ⟨rfl, by simp [extract_sections_from_html], ?_, ?_⟩
  · intro s hs
    simp only [extract_sections_from_html, List.mem_map] at hs
    obtain ⟨gc, -, rfl⟩ := hs
    exact preview300_length_le _
  · intro h
    unfold hasH2OpenTag at h
    have hnone := findFirstH2_none_of_no_open html.toList h
    unfold extract_sections_from_html h2Sections
    rw [hnone]
    rfl

/-- C10 witness: a document with only `h1`/`h3` headings yields no
sections. -/
theorem extract_sections_h2_only_witness :
    extract_sections_from_html "<h1>Only</h1><h3>Sub</h3><p>x</p>" = [] :=
  (extract_sections_h2_only "<h1>Only</h1><h3>Sub</h3><p>x</p>").2.2.2 (by decide)

/-! ## C6 — components with dangling anchors are dropped -/

/-- Without an `h2` whose stripped text equals the target, the heading
search changes nothing and reports no insertion. -/
theorem insH_noMatch_L (target : String) (comp : Node) :
    ∀ l : NodeList, target ∉ h2TextsL l → insHafterL target comp l = (l, false)
  | .nil => fun _ => rfl
  | .cons n l => fun h => by
    match n with
    | .text s =>
      have hl : target ∉ h2TextsL l := by
        simp only [h2TextsL, h2TextsN, List.nil_append] at h
        exact h
      simp [insHafterL, insH_noMatch_L target comp l hl]
    | .elem t a cs =>
      have hsplit : target ∉ h2TextsN (.elem t a cs) ∧ target ∉ h2TextsL l := by
        constructor <;> intro hm <;>
          exact h (by simp only [h2TextsL, List.mem_append]; tauto)
      have hcs : target ∉ h2TextsL cs := by
        intro hm
        exact hsplit.1 (by simp [h2TextsN, List.mem_append, hm])
      have hcond : ¬(t = "h2" ∧ getTextStripL cs = target) := by
        rintro ⟨rfl, hg⟩
        exact hsplit.1 (by simp [h2TextsN, hg])
      simp [insHafterL, hcond, insH_noMatch_L target comp cs hcs,
        insH_noMatch_L target comp l hsplit.2]

/-- A component whose anchor cannot be placed leaves the tree unchanged. -/
theorem componentDropped (soup : NodeList) (c : Component)
    (h : componentWouldInsert soup c = false) : applyComponent soup c = soup := by
  unfold componentWouldInsert at h
  unfold applyComponent
  by_cases h1 : c.ctype = "pull_quote"
  · rw [if_pos h1]
    rw [if_pos (Or.inl h1)] at h
    cases hip : c.insert_after_paragraph with
    | none => rfl
    | some idx =>
      rw [hip] at h
      unfold insert_component_after_paragraph
      exact if_neg (of_decide_eq_false h)
  · rw [if_neg h1]
    by_cases h2 : c.ctype = "stat_highlight"
    · rw [if_pos h2]
      rw [if_pos (Or.inr h2)] at h
      cases hip : c.insert_after_paragraph with
      | none => rfl
      | some idx =>
        rw [hip] at h
        unfold insert_component_after_paragraph
        exact if_neg (of_decide_eq_false h)
    · rw [if_neg h2]
      rw [if_neg (by tauto)] at h
      by_cases h3 : c.ctype = "case_study"
      · rw [if_pos h3]
        rw [if_pos (Or.inl h3)] at h
        cases hih : c.insert_after_heading with
        | none => rfl
        | some hh =>
          rw [hih] at h
          unfold insert_component_after_heading
          exact congrArg Prod.fst (insH_noMatch_L _ _ _ (of_decide_eq_false h))
      · rw [if_neg h3]
        by_cases h4 : c.ctype = "sidebar"
        · rw [if_pos h4]
          rw [if_pos (Or.inr h4)] at h
          cases hih : c.insert_after_heading with
          | none => rfl
          | some hh =>
            rw [hih] at h
            unfold insert_component_after_heading
            exact congrArg Prod.fst (insH_noMatch_L _ _ _ (of_decide_eq_false h))
        · rw [if_neg h4]

/-- The whole insertion loop is the identity when every component's anchor
is invalid. -/
theorem fold_applyComponent_invariant (soup : NodeList) (comps : List Component)
    (h : ∀ c ∈ comps, componentWouldInsert soup c = false) :
    comps.foldl applyComponent soup = soup := by
  induction comps with
  | nil => rfl
  | cons c cs ih =>
    rw [List.foldl_cons, componentDropped soup c (h c (by simp))]
    exact ih fun c' hc' => h c' (List.mem_cons_of_mem _ hc')

/-- C6 counterexample: the heading match is modulo whitespace stripping,
not verbatim — the anchor `" Heading "` appears verbatim in no `h2`, yet
the component is inserted rather than dropped. -/
theorem heading_anchor_strip_counterexample :
    h2TextsL soupOneH2 = ["Heading"]
    ∧ " Heading " ∉ h2TextsL soupOneH2
    ∧ strContains
        (serializeL (insert_component_after_heading soupOneH2 " Heading " caseStudyBox))
        "case-study-box" = true
    ∧ strContains (serializeL soupOneH2) "case-study-box" = false := by
  refine ⟨rfl, by decide, by decide, by decide⟩

/-- C6 (amended): a heading-anchored component is dropped without error iff
its stripped anchor matches the stripped text of no `h2` (the comparison strips
surrounding whitespace on both sides, so "verbatim" holds only up to
stripping); and assembling an article whose components all have invalid
anchors produces byte-identical output to assembling it with no components
at all. -/
theorem invalid_anchor_components_dropped :
    (∀ (soup : NodeList) (heading : String) (comp : Node),
        pyStrip heading ∉ h2TextsL soup →
        insert_component_after_heading soup heading comp = soup)
    ∧ (∀ (userEnv : List (String × String)) (now : String)
        (article : ArticleData) (hero : String) (imgs : List SectionImage)
        (colors : Option BrandColors),
        (∀ c ∈ article.components,
            componentWouldInsert (removeH1L article.html).1 c = false) →
        apply_magazine_styling userEnv now article hero imgs colors
          = apply_magazine_styling userEnv now
              { article with components := [] } hero imgs colors) := by
  constructor
  · intro soup heading comp h
    unfold insert_component_after_heading
    rw [insH_noMatch_L _ _ _ h]
  · intro userEnv now article hero imgs colors h
    simp only [apply_magazine_styling]
    rw [fold_applyComponent_invariant _ _ h]
    rfl

/-- C6 witness: the amended round-trip at a concrete article carrying one
dangling case study. -/
theorem invalid_anchor_components_dropped_witness :
    apply_magazine_styling [] ""
        { html := soupOneH2, components := [danglingCaseStudy] } "H" [] none
      = apply_magazine_styling [] ""
          { ({ html := soupOneH2, components := [danglingCaseStudy] } : ArticleData)
              with components := [] } "H" [] none :=
  invalid_anchor_components_dropped.2 [] ""
    { html := soupOneH2, components := [danglingCaseStudy] } "H" [] none
    (by decide)

/-! ## C8 — admin users and `deduct_credits` -/

/-- C8 counterexample: for an admin whose legacy `credit_balance` column is
NULL, `deduct_credits` does not leave the balance unchanged — the NULL is
normalised and committed as `0`. -/
theorem admin_deduct_null_balance_counterexample :
    adminNullDb.user.is_admin = true
    ∧ adminNullDb.user.credit_balance = none
    ∧ (deduct_credits adminNullDb false).2.user.credit_balance = some 0
    ∧ (deduct_credits adminNullDb false).2.user.credit_balance
        ≠ adminNullDb.user.credit_balance := by
  refine ⟨rfl, rfl, by decide, by decide⟩

/-- C8 (amended): for an admin with a non-NULL balance, and provided the
auto-recharge check does not fire during the call, `deduct_credits` leaves
`credit_balance` unchanged, increments `total_articles_generated` by 1, and
records a transaction with amount 0 (type `admin_article_generation`);
under the same no-recharge proviso only the non-admin path subtracts
`ARTICLE_COST` from the balance. -/
theorem admin_deduct_no_charge (db : CreditDb) (stripeOk : Bool) (b : Int)
    (hadmin : db.user.is_admin = true)
    (hbal : db.user.credit_balance = some b)
    (hnr : (db.user.auto_recharge_enabled
             && decide (b < db.user.auto_recharge_threshold)) = false) :
    (deduct_credits db stripeOk).1 = true
    ∧ (deduct_credits db stripeOk).2.user.credit_balance = some b
    ∧ (deduct_credits db stripeOk).2.user.total_articles_generated
        = some (db.user.total_articles_generated.getD 0 + 1)
    ∧ (deduct_credits db stripeOk).2.txns
        = db.txns ++ [{ amount := 0,
                        transaction_type := "admin_article_generation",
                        balance_after := b }]
    ∧ (∀ (db' : CreditDb) (stripeOk' : Bool) (b' : Int),
        db'.user.is_admin = false →
        db'.user.credit_balance = some b' →
        (db'.user.auto_recharge_enabled
          && decide (b' - ARTICLE_COST < db'.user.auto_recharge_threshold)) = false →
        (deduct_credits db' stripeOk').2.user.credit_balance
          = some (b' - ARTICLE_COST)) := by
  have hmain : ∀ three : True,
      (deduct_credits db stripeOk).2.user.credit_balance = some b
      ∧ (deduct_credits db stripeOk).2.user.total_articles_generated
          = some (db.user.total_articles_generated.getD 0 + 1)
      ∧ (deduct_credits db stripeOk).2.txns
          = db.txns ++ [{ amount := 0,
                          transaction_type := "admin_article_generation",
                          balance_after := b }] := by
    intro _
    simp only [deduct_credits, normalizeNullFields, rechargeCheckFires, hadmin,
      hbal, ARTICLE_COST]
    simp only [Bool.not_true, Bool.false_eq_true, if_false, Option.getD_some]
    simp [hnr]
  refine ⟨rfl, (hmain trivial).1, (hmain trivial).2.1, (hmain trivial).2.2, ?_⟩
  intro db' stripeOk' b' hadmin' hbal' hnr'
  have hnr2 : ¬(db'.user.auto_recharge_enabled = true
      ∧ b' - 1 < db'.user.auto_recharge_threshold) := by
    simpa [ARTICLE_COST] using hnr'
  simp only [deduct_credits, normalizeNullFields, rechargeCheckFires, hadmin',
    hbal', ARTICLE_COST]
  simp [hnr2]

/-- C8 witness: the amended theorem at a concrete admin row with balance 7
and auto-recharge disabled. -/
theorem admin_deduct_no_charge_witness :
    (deduct_credits
      { user :=
          { is_admin := true, credit_balance := some 7,
            total_articles_generated := some 2, total_spent := some 0,
            auto_recharge_enabled := false, auto_recharge_threshold := 0,
            auto_recharge_amount := 0, stripe_payment_method_present := false }
        txns := [] } true).2.user.credit_balance = some 7 :=
  (admin_deduct_no_charge _ true 7 rfl rfl (by decide)).2.1

/-! ## C9 — `refund_credits` after `deduct_credits` -/

/-- C9 counterexample: for a non-admin with non-NULL credit fields whose
auto-recharge fires during `deduct_credits` (balance dips below the
threshold and the Stripe payment succeeds), the subsequent refund does not
restore `credit_balance`: 1 → 0 → 25 (recharge) → 26 ≠ 1, although both
database commits of the deduct/refund pair succeed. -/
theorem refund_after_recharge_counterexample :
    rechargingDb.user.is_admin = false
    ∧ rechargingDb.user.credit_balance = some 1
    ∧ (deduct_credits rechargingDb true).1 = true
    ∧ (refund_credits (deduct_credits rechargingDb true).2).1 = true
    ∧ (refund_credits (deduct_credits rechargingDb true).2).2.user.credit_balance
        = some 26
    ∧ (refund_credits (deduct_credits rechargingDb true).2).2.user.credit_balance
        ≠ rechargingDb.user.credit_balance := by
  refine ⟨rfl, rfl, rfl, rfl, by decide, by decide⟩

/-- C9 (amended): for a non-admin with non-NULL credit fields, and provided
the auto-recharge check does not fire during the deduction, applying
`refund_credits` after a successful `deduct_credits` restores both
`credit_balance` and `total_articles_generated` to their prior values. -/
theorem refund_inverts_deduct (db : CreditDb) (stripeOk : Bool) (b a : Int)
    (hadmin : db.user.is_admin = false)
    (hbal : db.user.credit_balance = some b)
    (harts : db.user.total_articles_generated = some a)
    (hnr : (db.user.auto_recharge_enabled
             && decide (b - ARTICLE_COST < db.user.auto_recharge_threshold)) = false) :
    (deduct_credits db stripeOk).1 = true
    ∧ (refund_credits (deduct_credits db stripeOk).2).1 = true
    ∧ (refund_credits (deduct_credits db stripeOk).2).2.user.credit_balance = some b
    ∧ (refund_credits (deduct_credits db stripeOk).2).2.user.total_articles_generated
        = some a := by
  have hnr2 : ¬(db.user.auto_recharge_enabled = true
      ∧ b - 1 < db.user.auto_recharge_threshold) := by
    simpa [ARTICLE_COST] using hnr
  refine ⟨rfl, rfl, ?_, ?_⟩ <;>
  · simp only [deduct_credits, normalizeNullFields, rechargeCheckFires, hadmin,
      hbal, harts, ARTICLE_COST]
    simp [hnr2, refund_credits, normalizeNullFields, ARTICLE_COST]
    try omega

/-- C9 witness: the amended theorem at a concrete non-admin row with
balance 3 and auto-recharge disabled. -/
theorem refund_inverts_deduct_witness :
    (refund_credits (deduct_credits
      { user :=
          { is_admin := false, credit_balance := some 3,
            total_articles_generated := some 7, total_spent := some 0,
            auto_recharge_enabled := false, auto_recharge_threshold := 0,
            auto_recharge_amount := 0, stripe_payment_method_present := false }
        txns := [] } false).2).2.user.credit_balance = some 3 :=
  (refund_inverts_deduct _ false 3 7 rfl rfl rfl (by decide)).2.2.1

end EZWAI
